import Mathlib

/-!
Verification of the staleness-detection engine of procs-need-restart.c
(apk-autoupdate).  The C program is shallowly embedded: each C function is
translated into an executable Lean definition over an explicit model of the
operating-system state (a `Sys` value), and the claimed properties of the
specification are settled as theorems about those definitions.

Modelling conventions:
* File contents are byte lists (`List Nat`); `st_size` is the list length.
* Outcomes of system calls on the live process table (readlink/lstat on
  /proc/pid/exe, fopen of /proc/pid/maps, kill(pid, 0)) are fields of `Sys`,
  one independent field per interface, because the C program can observe any
  combination of them across the races it is written to tolerate.
* `errno` values are the `Errno` inductive; `other` stands for every errno
  the program does not inspect by name.
* stderr logging (log_err) has no observable effect on results and is not
  modelled; stdout emission is modelled as a returned list of `OutLine`.
* Machine integer overflow never matters for the quantities involved
  (addresses, device numbers, inodes are far below 2^64 and are only parsed
  and compared), so they are modelled as `Nat`.
-/

namespace PNR

/-- PATH_MAX on Linux, used by the C program for all path buffers. -/
def PATH_MAX : Nat := 4096

/-- Distinct exit status for usage errors (EXIT_WRONG_USAGE in the C). -/
def EXIT_WRONG_USAGE : Int := 100

/-- Errno values the program distinguishes; `other` is any further errno. -/
inductive Errno where
  | eacces
  | enoent
  | esrch
  | other
deriving DecidableEq, Repr

/-- State of the /proc/pid/exe entry of one process, as observable through
readlink and lstat:
* `absent`: the process vanished, the whole /proc/pid directory is gone
  (readlink fails with ENOENT and lstat fails too);
* `kernelTask`: a kernel-internal task, the exe entry exists as a filesystem
  object but has no link target (readlink fails with ENOENT, lstat succeeds);
* `denied`: readlink fails with EACCES (lstat on the entry itself succeeds);
* `target p`: readlink succeeds and yields the string `p`. -/
inductive ExeState where
  | absent
  | kernelTask
  | denied
  | target (path : String)
deriving DecidableEq, Repr

/-- Result of fopen on /proc/pid/maps: denied (EACCES), absent (ENOENT),
ioerr (any other errno), or the stream of lines getline would return
(each line including its trailing newline, as getline yields it). -/
inductive MapsState where
  | denied
  | absent
  | ioerr
  | stream (lines : List String)
deriving DecidableEq, Repr

/-- One stdout line of the program: either a bare pid line (printf "%d\n")
or a pid plus path line in verbose mode (printf "%d\t%s\n"). -/
inductive OutLine where
  | pid (p : Nat)
  | pidPath (p : Nat) (path : String)
deriving DecidableEq, Repr

/-- The global flag bits of the C program (FLAG_VERBOSE, FLAG_IGNORE_EACCES). -/
structure Flags where
  verbose : Bool
  ignore_eacces : Bool
deriving DecidableEq, Repr

/-- The observable operating-system state the program runs against.
`files` models open+fstat+mmap+read of a path (including the /proc magic
paths /proc/pid/exe, /proc/pid/root/..., /proc/pid/map_files/...):
`none` means open fails, `some bytes` gives the regular file content. -/
structure Sys where
  exe_state : Nat → ExeState
  maps_state : Nat → MapsState
  /-- Result of kill(pid, 0): `none` is success, `some e` is failure
  with errno `e`. -/
  kill_result : Nat → Option Errno
  files : String → Option (List Nat)
  /-- Directory entries of /proc in readdir order. -/
  proc_entries : List String

/-- An invocation of the program after getopt has consumed the options
(option parsing itself is outside the verified core): effective uid,
the -v flag, the accumulated -f patterns in order, and the remaining
positional arguments. -/
structure Invocation where
  euid : Nat
  verbose : Bool
  patterns : List String
  pos_args : List String

/-! ## String helpers (str_chomp, str_to_uint, lines 128-156) -/

/-- Model of str_chomp (lines 128-142): if `str` ends with `suffix`,
return the truncated string (the C mutates in place and returns true),
otherwise `none` (the C returns false and leaves the string unchanged). -/
def str_chomp (str suffix : String) : Option String :=
  let sl := str.data
  let xl := suffix.data
  if sl.length < xl.length then none
  else if sl.drop (sl.length - xl.length) = xl then
    some ⟨sl.take (sl.length - xl.length)⟩
  else none

/-- The pattern `(void) str_chomp(s, suffix)` of the C: strip the suffix
when present, keep the string unchanged otherwise. -/
def chompIf (s suffix : String) : String := (str_chomp s suffix).getD s

/-- Model of str_to_uint (lines 144-156): `some n` iff the string is a
nonempty all-decimal-digit string whose value is at most INT_MAX, else
`none` (the C returns -1).  The first-character isdigit test plus the
final `*end != 0` test of strtoul amount exactly to "all digits". -/
def str_to_uint (s : String) : Option Nat :=
  match s.data with
  | [] => none
  | c :: _ =>
    if c.isDigit && s.data.all Char.isDigit then
      let v := s.data.foldl (fun a d => a * 10 + (d.toNat - 48)) 0
      if v ≤ 2147483647 then some v else none
    else none

/-- Model of atoi as used in main (line 489): skip leading whitespace,
optional sign, value of the longest decimal digit prefix (0 when there is
none).  Overflow is undefined behaviour in C and is not modelled; the
mathematical value is returned. -/
def atoi (s : String) : Int :=
  let digitsVal : List Char → Int :=
    fun cs => (cs.takeWhile Char.isDigit).foldl (fun a d => a * 10 + (d.toNat - 48)) 0
  let cs := s.data.dropWhile (fun c => c == ' ' || c == '\t' || c == '\n' || c == '\r')
  match cs with
  | '-' :: rest => - digitsVal rest
  | '+' :: rest => digitsVal rest
  | _ => digitsVal cs

/-! ## Pattern matching (fnmatch_any, lines 158-169)

fnmatch(3) is a C library function, not code of this repository; it is
modelled from its documented no-flags semantics as used here (the spec:
shell-glob matching where dot-files and slashes are ordinary characters).
The model covers the asterisk, question-mark, backslash-escape and literal
forms; bracket classes are not exercised by any verified property. -/

/-- Fuel-indexed glob matcher; the fuel only makes the recursion structural,
`fnmatch` always supplies enough of it (every step consumes at least one
character of the pattern or of the string). -/
def fnmatchAux : Nat → List Char → List Char → Bool
  | 0, _, _ => false
  | _ + 1, [], [] => true
  | _ + 1, [], _ :: _ => false
  | fuel + 1, '*' :: ps, [] => fnmatchAux fuel ps []
  | fuel + 1, '*' :: ps, c :: cs =>
    fnmatchAux fuel ps (c :: cs) || fnmatchAux fuel ('*' :: ps) cs
  | fuel + 1, '?' :: ps, _ :: cs => fnmatchAux fuel ps cs
  | _ + 1, '?' :: _, [] => false
  | fuel + 1, '\\' :: p :: ps, c :: cs => p == c && fnmatchAux fuel ps cs
  | _ + 1, '\\' :: _, _ => false
  | fuel + 1, p :: ps, c :: cs => p == c && fnmatchAux fuel ps cs
  | _ + 1, _ :: _, [] => false

/-- Glob match of a whole string against a whole pattern, fnmatch(3) with
no flags. -/
def fnmatch (pat s : String) : Bool :=
  fnmatchAux (pat.data.length + s.data.length + 1) pat.data s.data

/-- Leading-bang test of a rule (item[0] == bang, line 162). -/
def ruleNegated (item : String) : Bool := item.data.head? == some '!'

/-- Glob part of a rule: the item without its leading bang when negated. -/
def rulePat (item : String) : String :=
  if ruleNegated item then ⟨item.data.drop 1⟩ else item

/-- Model of fnmatch_any (lines 158-169): walk the patterns in order; on
the first one whose glob matches return the complement of its negation
flag (true XOR negated); return false when none matches. -/
def fnmatch_any : List String → String → Bool
  | [], _ => false
  | item :: rest, s =>
    if fnmatch (rulePat item) s then !(ruleNegated item)
    else fnmatch_any rest s

/-- The pattern-matcher contract as used at both call sites (lines 321 and
375): with no -f rules everything is selected; otherwise fnmatch_any
decides. -/
def matches' (rules : List String) (path : String) : Bool :=
  rules.isEmpty || fnmatch_any rules path

/-! ## File content comparison (cmp_files, lines 171-215) -/

/-- Model of cmp_files (lines 171-215): 0 means identical, 1 means
different, -1 (RET_ERROR) means the comparison failed.  Either open
failing gives -1; differing fstat sizes give 1 before any content is
mapped; with equal sizes both files are mmapped — mmap of a zero-length
range fails with EINVAL (POSIX), so equal-size zero-length files give -1 —
and memcmp decides 0 or 1.  All descriptors and mappings are released on
every path in the C; resource handling has no observable effect here. -/
def cmp_files (files : String → Option (List Nat)) (fname1 fname2 : String) : Int :=
  match files fname1 with
  | none => -1
  | some f1 =>
    match files fname2 with
    | none => -1
    | some f2 =>
      if f1.length ≠ f2.length then 1
      else if f1.length = 0 then -1
      else if f1 = f2 then 0 else 1

/-! ## /proc path construction (the PROC_*_PATH format strings) -/

/-- Lowercase hexadecimal rendering of a number, as printf %lx. -/
def toHex (n : Nat) : String := ⟨Nat.toDigits 16 n⟩

/-- PROC_EXE_PATH: /proc/pid/exe. -/
def proc_exe_path (pid : Nat) : String := "/proc/" ++ toString pid ++ "/exe"

/-- PROC_ROOT_PATH: /proc/pid/root/link_path (the C pastes the resolved
absolute link path after the slash, so absolute targets produce a double
slash; the model reproduces the exact string). -/
def proc_root_path (pid : Nat) (p : String) : String :=
  "/proc/" ++ toString pid ++ "/root/" ++ p

/-- PROC_MAP_FILES_PATH: /proc/pid/map_files/start-end in lowercase hex. -/
def proc_map_files_path (pid start end_ : Nat) : String :=
  "/proc/" ++ toString pid ++ "/map_files/" ++ toHex start ++ "-" ++ toHex end_

/-! ## Identity resolution (resolve_link, is_kernel_proc, proc_exists) -/

/-- Readlink on /proc/pid/exe as determined by the exe entry state.
resolve_link (lines 254-264) adds a truncation guard, but readlink caps
its result at one byte below the buffer size, so the guard can never
fire and resolve_link fails exactly when readlink fails. -/
def readlink_exe (s : Sys) (pid : Nat) : Except Errno String :=
  match s.exe_state pid with
  | .absent => .error .enoent
  | .kernelTask => .error .enoent
  | .denied => .error .eacces
  | .target p => .ok p

/-- lstat on the /proc/pid/exe entry succeeds whenever the entry itself
still exists as a filesystem object, i.e. unless the process vanished. -/
def exe_lstat_ok (s : Sys) (pid : Nat) : Bool :=
  match s.exe_state pid with
  | .absent => false
  | _ => true

/-- Model of is_kernel_proc (lines 229-241): a one-byte readlink failing
with ENOENT, followed by a successful lstat of the same entry; any other
readlink outcome gives false. -/
def is_kernel_proc (s : Sys) (pid : Nat) : Bool :=
  match readlink_exe s pid with
  | .error .enoent => exe_lstat_ok s pid
  | _ => false

/-- Model of proc_exists (lines 243-252): 0 when kill(pid, 0) succeeds,
1 when it fails with ESRCH (the process is gone), -1 on any other errno. -/
def proc_exists (s : Sys) (pid : Nat) : Int :=
  match s.kill_result pid with
  | none => 0
  | some .esrch => 1
  | some _ => -1

/-! ## Memory map parsing (proc_maps_replaced_files, front half) -/

/-- Selected fields of one /proc/pid/maps record (struct map_info,
lines 109-115). -/
structure map_info where
  start : Nat
  end_ : Nat
  dev_major : Nat
  inode : Nat
  filename : String
deriving DecidableEq, Repr

/-- Hexadecimal digit value of a character, accepting both cases. -/
def hexDigit? (c : Char) : Option Nat :=
  if '0' ≤ c ∧ c ≤ '9' then some (c.toNat - 48)
  else if 'a' ≤ c ∧ c ≤ 'f' then some (c.toNat - 87)
  else if 'A' ≤ c ∧ c ≤ 'F' then some (c.toNat - 55)
  else none

/-- sscanf %x conversion: value of a nonempty maximal hex-digit run plus
the rest of the input (sign and 0x prefixes never occur in maps lines and
are not modelled). -/
def parseHex (cs : List Char) : Option (Nat × List Char) :=
  let ds := cs.takeWhile (fun c => (hexDigit? c).isSome)
  if ds.isEmpty then none
  else some (ds.foldl (fun a c => a * 16 + (hexDigit? c).getD 0) 0, cs.drop ds.length)

/-- sscanf %lu conversion: value of a nonempty maximal decimal-digit run
plus the rest of the input. -/
def parseDec (cs : List Char) : Option (Nat × List Char) :=
  let ds := cs.takeWhile Char.isDigit
  if ds.isEmpty then none
  else some (ds.foldl (fun a c => a * 10 + (c.toNat - 48)) 0, cs.drop ds.length)

/-- A whitespace directive of a scanf format: skip any (possibly empty)
run of whitespace. -/
def scanf_ws (cs : List Char) : List Char :=
  cs.dropWhile (fun c => c == ' ' || c == '\t' || c == '\n' || c == '\r')

/-- One literal character the input must provide next. -/
def expectChar (ch : Char) : List Char → Option (List Char)
  | c :: rest => if c = ch then some rest else none
  | [] => none

/-- Model of the sscanf call of lines 304-305 with format
"%lx-%lx %*c%*c%*c%*c %*x %x:%*x %lu%*[ \t]%4096[^\n]" applied to the
already-chomped line: start and end addresses in hex, four arbitrary
permission characters (assignment-suppressed), skipped hex offset, device
major in hex, colon, skipped device minor, decimal inode, at least one
space or tab, then at least one and at most 4096 non-newline filename
characters.  `none` models an assignment count below 5 (the line is
skipped). -/
def parse_maps_line (s : String) : Option map_info := do
  let cs := scanf_ws s.data
  let (start, cs) ← parseHex cs
  let cs ← expectChar '-' cs
  let (end_, cs) ← parseHex cs
  let cs := scanf_ws cs
  let cs ← if cs.length < 4 then none else some (cs.drop 4)
  let cs := scanf_ws cs
  let (_offset, cs) ← parseHex cs
  let cs := scanf_ws cs
  let (dev_major, cs) ← parseHex cs
  let cs ← expectChar ':' cs
  let (_dev_minor, cs) ← parseHex cs
  let cs := scanf_ws cs
  let (inode, cs) ← parseDec cs
  let ws := cs.takeWhile (fun c => c == ' ' || c == '\t')
  if ws.isEmpty then none
  else
    let cs := cs.drop ws.length
    let name := (cs.takeWhile (fun c => c != '\n')).take 4096
    if name.isEmpty then none
    else some ⟨start, end_, dev_major, inode, ⟨name⟩⟩

/-- The suffix stripping applied to the exe link target (lines 366-372):
the line is a candidate only if the " (deleted)" marker is present; the
.apk-new staging suffix is then stripped when present. -/
def strip_exe_link (lp : String) : Option String :=
  match str_chomp lp " (deleted)" with
  | none => none
  | some p1 => some (chompIf p1 ".apk-new")

/-- The suffix stripping applied to one raw maps line (lines 296-301):
the line is a candidate only if it ends with " (deleted)\n"; the .apk-new
staging suffix is then stripped when present. -/
def strip_maps_line (line : String) : Option String :=
  match str_chomp line " (deleted)\n" with
  | none => none
  | some b1 => some (chompIf b1 ".apk-new")

/-- Candidate extraction from one raw maps line: suffix stripping
(lines 296-301) followed by the sscanf decode (lines 303-307). -/
def parse_candidate (line : String) : Option map_info :=
  (strip_maps_line line).bind parse_maps_line

/-- The parsing and deduplication stage of the maps loop (lines 294-313):
the sequence of map_info records that survive the adjacent-duplicate
filter, threading last_filename exactly as the C does (every parsed
candidate updates it, lines 310-313). -/
def maps_entries : List String → String → List map_info
  | [], _ => []
  | line :: rest, last =>
    match parse_candidate line with
    | none => maps_entries rest last
    | some mi =>
      if mi.filename = last then maps_entries rest last
      else mi :: maps_entries rest mi.filename

/-! ## Staleness classification (proc_maps_replaced_files,
proc_has_replaced_exe, lines 266-399) -/

/-- The getline loop of proc_maps_replaced_files (lines 294-338), with the
result value and the emitted stdout lines made explicit.  The res latch of
the C (initially 1, set to 0 at the first stale file, never reset) appears
as the 0 in the stale branches; in non-verbose mode the loop breaks at the
first stale file. -/
def maps_loop (s : Sys) (fl : Flags) (pats : List String) (pid : Nat) :
    List String → String → Int × List OutLine
  | [], _ => (1, [])
  | line :: rest, last =>
    match parse_candidate line with
    | none => maps_loop s fl pats pid rest last
    | some mi =>
      if mi.filename = last then maps_loop s fl pats pid rest last
      else if mi.inode = 0 ∨ mi.dev_major = 0 then
        maps_loop s fl pats pid rest mi.filename
      else if !pats.isEmpty && !fnmatch_any pats mi.filename then
        maps_loop s fl pats pid rest mi.filename
      else if cmp_files s.files mi.filename
          (proc_map_files_path pid mi.start mi.end_) = 0 then
        maps_loop s fl pats pid rest mi.filename
      else if fl.verbose then
        (0, .pidPath pid mi.filename :: (maps_loop s fl pats pid rest mi.filename).2)
      else (0, [.pid pid])

/-- Model of proc_maps_replaced_files (lines 266-344): fopen of
/proc/pid/maps with the EACCES-ignore and vanished-process escapes
(lines 276-288), then the line loop.  Returns 0 when some mapped file is
stale, 1 when none is, -1 on a hard error. -/
def proc_maps_replaced_files (s : Sys) (fl : Flags) (pats : List String)
    (pid : Nat) : Int × List OutLine :=
  match s.maps_state pid with
  | .stream lines => maps_loop s fl pats pid lines ""
  | .denied =>
    if fl.ignore_eacces then (1, [])
    else if proc_exists s pid = 1 then (1, [])
    else (-1, [])
  | .absent =>
    if proc_exists s pid = 1 then (1, []) else (-1, [])
  | .ioerr =>
    if proc_exists s pid = 1 then (1, []) else (-1, [])

/-- Model of proc_has_replaced_exe (lines 346-399): resolve the exe link
with the EACCES-ignore and vanished-process escapes (lines 353-365), strip
the deletion marker and staging suffix, apply the filter rules, build
/proc/pid/root/path (with the snprintf overflow guard of lines 382-384,
whose failure skips the comparison but still reports), compare, report.
Returns 0 when the executable is stale, 1 when not, -1 on a hard error. -/
def proc_has_replaced_exe (s : Sys) (fl : Flags) (pats : List String)
    (pid : Nat) : Int × List OutLine :=
  match readlink_exe s pid with
  | .error e =>
    if e = .eacces ∧ fl.ignore_eacces then (1, [])
    else if proc_exists s pid = 1 then (1, [])
    else (-1, [])
  | .ok link_path0 =>
    match strip_exe_link link_path0 with
    | none => (1, [])
    | some link_path =>
      if !pats.isEmpty && !fnmatch_any pats link_path then (1, [])
      else
        let file_path := proc_root_path pid link_path
        if file_path.length ≥ PATH_MAX then
          if fl.verbose then (0, [.pidPath pid link_path]) else (0, [.pid pid])
        else if cmp_files s.files (proc_exe_path pid) file_path = 0 then (1, [])
        else if fl.verbose then (0, [.pidPath pid link_path])
        else (0, [.pid pid])

/-! ## Scan orchestration (scan_proc, scan_procs, scan_all_procs, main) -/

/-- Model of scan_proc (lines 401-412): the exe check, the early returns
on its error or on a non-verbose stale result, then the maps check with
the two results multiplied. -/
def scan_proc (s : Sys) (fl : Flags) (pats : List String) (pid : Nat) :
    Int × List OutLine :=
  let r1 := proc_has_replaced_exe s fl pats pid
  if r1.1 = -1 then r1
  else if r1.1 = 0 ∧ fl.verbose = false then r1
  else
    let r2 := proc_maps_replaced_files s fl pats pid
    (r1.1 * r2.1, r1.2 ++ r2.2)

/-- Model of scan_procs (lines 414-423): scan every pid of the list in
order, latch EXIT_FAILURE (1) when any scan returns a negative result. -/
def scan_procs (s : Sys) (fl : Flags) (pats : List String) :
    List Nat → Int × List OutLine
  | [] => (0, [])
  | pid :: rest =>
    let r := scan_proc s fl pats pid
    let rec_ := scan_procs s fl pats rest
    (if r.1 < 0 then 1 else rec_.1, r.2 ++ rec_.2)

/-- The scanning loop of scan_all_procs (lines 439-446): skip kernel
processes, scan the others, latch the failure status. -/
def scan_all_loop (s : Sys) (fl : Flags) (pats : List String) :
    List Nat → Int × List OutLine
  | [] => (0, [])
  | pid :: rest =>
    if is_kernel_proc s pid then scan_all_loop s fl pats rest
    else
      let r := scan_proc s fl pats pid
      let rec_ := scan_all_loop s fl pats rest
      (if r.1 < 0 then 1 else rec_.1, r.2 ++ rec_.2)

/-- Model of scan_all_procs (lines 425-450): repeated next_pid calls
enumerate the numeric /proc entries in order; the pre-loop next_pid call
(line 434) checks for an empty process table and consumes — and thereby
drops — the first enumerated pid before the loop starts.  The opendir
failure branch concerns the environment, not a process, and is outside
this model. -/
def scan_all_procs (s : Sys) (fl : Flags) (pats : List String) :
    Int × List OutLine :=
  match s.proc_entries.filterMap str_to_uint with
  | [] => (1, [])
  | _ :: rest => scan_all_loop s fl pats rest

/-- The positional-argument validation loop of main (lines 488-495):
every argument must have an atoi value of at least 1, else the program
exits with the usage status before any scanning. -/
def parse_pids : List String → Option (List Nat)
  | [] => some []
  | a :: rest =>
    if atoi a < 1 then none
    else
      match parse_pids rest with
      | none => none
      | some ps => some ((atoi a).toNat :: ps)

/-- Model of main after option parsing (lines 484-504): with positional
arguments, validate them and run the explicit-list scan with the flags as
accumulated by getopt (FLAG_IGNORE_EACCES is never set on this path);
with none, set FLAG_IGNORE_EACCES exactly when the effective uid is not 0
and run the full scan. -/
def main_run (s : Sys) (inv : Invocation) : Int × List OutLine :=
  if inv.pos_args.isEmpty then
    scan_all_procs s ⟨inv.verbose, inv.euid != 0⟩ inv.patterns
  else
    match parse_pids inv.pos_args with
    | none => (EXIT_WRONG_USAGE, [])
    | some pids => scan_procs s ⟨inv.verbose, false⟩ inv.patterns pids

/-! ## Concrete system states used by the concrete theorems below -/

/-- Two live user processes 1 and 7, both with a replaced executable and
no readable replacement on disk, so both would be reported stale. -/
def c1sys : Sys where
  exe_state := fun _ => .target "/bin/sh (deleted)"
  maps_state := fun _ => .stream []
  kill_result := fun _ => none
  files := fun _ => none
  proc_entries := ["1", "7"]

/-- A live process whose identity and mapping data deny read access. -/
def c2sys : Sys where
  exe_state := fun _ => .denied
  maps_state := fun _ => .denied
  kill_result := fun _ => none
  files := fun _ => none
  proc_entries := []

/-- A live process with a stale executable whose maps stream fails to
open with a hard (non-permission, non-vanished) error. -/
def c3sys : Sys where
  exe_state := fun _ => .target "/bin/sh (deleted)"
  maps_state := fun _ => .ioerr
  kill_result := fun _ => none
  files := fun _ => none
  proc_entries := []

/-- A file table holding one zero-length file. -/
def c5files : String → Option (List Nat) :=
  fun p => if p = "/tmp/empty" then some [] else none

/-- A file table with two readable files of different sizes. -/
def c5wfiles : String → Option (List Nat) :=
  fun p => if p = "/a" then some [1] else if p = "/b" then some [2, 3] else none

/-- A live process whose executable link target carries the staging
suffix and the deletion marker, with no readable replacement. -/
def c7sys : Sys where
  exe_state := fun _ => .target "/usr/bin/foo.apk-new (deleted)"
  maps_state := fun _ =>
    .stream ["7f00-7f10 r-xp 00000000 08:02 42  /usr/bin/foo.apk-new (deleted)\n"]
  kill_result := fun _ => none
  files := fun _ => none
  proc_entries := []

/-- An empty process table: every pid is vanished everywhere. -/
def c9sys : Sys where
  exe_state := fun _ => .absent
  maps_state := fun _ => .absent
  kill_result := fun _ => some .esrch
  files := fun _ => none
  proc_entries := []

/-- A live process with one deleted mapped file whose on-disk counterpart
has vanished, so the content comparison itself fails with -1. -/
def c10sys : Sys where
  exe_state := fun _ => .target "/bin/x (deleted)"
  maps_state := fun _ =>
    .stream ["7f00-7f10 r-xp 00000000 08:02 42  /usr/lib/libx.so (deleted)\n"]
  kill_result := fun _ => none
  files := fun _ => none
  proc_entries := []

/-- The three-permission-variant mapping stream of the deduplication
property, as the kernel emits it. -/
def c6lines : List String :=
  ["7f0000000000-7f0000021000 r-xp 00000000 08:02 123456       /usr/lib/libfoo.so.1 (deleted)\n",
   "7f0000021000-7f0000040000 r--p 00021000 08:02 123456       /usr/lib/libfoo.so.1 (deleted)\n",
   "7f0000040000-7f0000041000 rw-p 00040000 08:02 123456       /usr/lib/libfoo.so.1 (deleted)\n"]

/-- An alternating mapping stream: the same filename reappears after a
different one in between, so order-adjacent deduplication keeps both
occurrences. -/
def c6altLines : List String :=
  ["1-2 r-xp 00000000 08:02 42  /a (deleted)\n",
   "3-4 r-xp 00000000 08:02 43  /b (deleted)\n",
   "5-6 r-xp 00000000 08:02 42  /a (deleted)\n"]

/-! ## Shared helper lemmas -/

theorem str_append_assoc (a b c : String) : a ++ b ++ c = a ++ (b ++ c) :=
  String.ext (by simp [String.data_append])

theorem str_chomp_append (p q : String) : str_chomp (p ++ q) q = some p := by
  have h1 : ¬ ((p ++ q).data.length < q.data.length) := by
    rw [String.data_append, List.length_append]; omega
  have h2 : (p ++ q).data.drop ((p ++ q).data.length - q.data.length) = q.data := by
    rw [String.data_append, List.length_append, Nat.add_sub_cancel, List.drop_left]
  have h3 : (p ++ q).data.take ((p ++ q).data.length - q.data.length) = p.data := by
    rw [String.data_append, List.length_append, Nat.add_sub_cancel, List.take_left]
  simp only [str_chomp, h1, if_false, h2, if_true, h3]

theorem chompIf_append (p q : String) : chompIf (p ++ q) q = p := by
  simp [chompIf, str_chomp_append]

/-- The maps-loop result is 0 or 1 (the open-failure -1 arises before
the loop). -/
theorem maps_loop_fst_01 (s : Sys) (fl : Flags) (pats : List String) (pid : Nat) :
    ∀ lines last, (maps_loop s fl pats pid lines last).1 = 0 ∨
      (maps_loop s fl pats pid lines last).1 = 1 := by
  intro lines
  induction lines with
  | nil => intro last; right; rfl
  | cons line rest ih =>
    intro last
    rcases h : parse_candidate line with _ | mi
    · simpa only [maps_loop, h] using ih last
    · simp only [maps_loop, h]
      repeat' split
      all_goals first
        | exact ih last
        | exact ih mi.filename
        | (left; rfl)

/-- Range of the proc_maps_replaced_files result value. -/
theorem proc_maps_fst_range (s : Sys) (fl : Flags) (pats : List String) (pid : Nat) :
    (proc_maps_replaced_files s fl pats pid).1 = -1 ∨
    (proc_maps_replaced_files s fl pats pid).1 = 0 ∨
    (proc_maps_replaced_files s fl pats pid).1 = 1 := by
  unfold proc_maps_replaced_files
  rcases h : s.maps_state pid with _ | _ | _ | lines
  all_goals simp only [h]
  case stream =>
    rcases maps_loop_fst_01 s fl pats pid lines "" with h0 | h1
    · right; left; exact h0
    · right; right; exact h1
  all_goals repeat' split
  all_goals simp

/-- Range of the proc_has_replaced_exe result value. -/
theorem proc_has_fst_range (s : Sys) (fl : Flags) (pats : List String) (pid : Nat) :
    (proc_has_replaced_exe s fl pats pid).1 = -1 ∨
    (proc_has_replaced_exe s fl pats pid).1 = 0 ∨
    (proc_has_replaced_exe s fl pats pid).1 = 1 := by
  unfold proc_has_replaced_exe
  rcases h : readlink_exe s pid with e | lp
  all_goals simp only [h]
  · repeat' split
    all_goals simp
  · rcases hs : strip_exe_link lp with _ | link_path
    all_goals simp only [hs]
    · simp
    · repeat' split
      all_goals simp

/-- When some positional argument has an atoi value below 1, the
validation loop of main rejects the list. -/
theorem parse_pids_eq_none :
    ∀ args : List String, (∃ a ∈ args, atoi a < 1) → parse_pids args = none := by
  intro args
  induction args with
  | nil => intro h; simp at h
  | cons a rest ih =>
    intro h
    by_cases ha : atoi a < 1
    · simp [parse_pids, ha]
    · rcases h with ⟨x, hx, hlt⟩
      rcases List.mem_cons.mp hx with rfl | hmem
      · exact absurd hlt ha
      · simp [parse_pids, ha, ih ⟨x, hmem, hlt⟩]

/-- When every positional argument has an atoi value of at least 1, the
validation loop accepts and yields those values in order. -/
theorem parse_pids_eq_some :
    ∀ args : List String, (∀ a ∈ args, 1 ≤ atoi a) →
      parse_pids args = some (args.map (fun a => (atoi a).toNat)) := by
  intro args
  induction args with
  | nil => intro _; rfl
  | cons a rest ih =>
    intro h
    have ha : ¬ atoi a < 1 := by
      have := h a (List.mem_cons_self a rest)
      omega
    simp [parse_pids, ha, ih (fun x hx => h x (List.mem_cons_of_mem a hx))]

/-- Unfolding equation of scan_proc with the let bindings inlined. -/
theorem scan_proc_def (s : Sys) (fl : Flags) (pats : List String) (pid : Nat) :
    scan_proc s fl pats pid =
      if (proc_has_replaced_exe s fl pats pid).1 = -1 then
        proc_has_replaced_exe s fl pats pid
      else if (proc_has_replaced_exe s fl pats pid).1 = 0 ∧ fl.verbose = false then
        proc_has_replaced_exe s fl pats pid
      else
        ((proc_has_replaced_exe s fl pats pid).1 *
           (proc_maps_replaced_files s fl pats pid).1,
         (proc_has_replaced_exe s fl pats pid).2 ++
           (proc_maps_replaced_files s fl pats pid).2) := rfl

/-- Unfolding equation of scan_procs on a nonempty list. -/
theorem scan_procs_cons (s : Sys) (fl : Flags) (pats : List String)
    (pid : Nat) (rest : List Nat) :
    scan_procs s fl pats (pid :: rest) =
      (if (scan_proc s fl pats pid).1 < 0 then 1 else (scan_procs s fl pats rest).1,
       (scan_proc s fl pats pid).2 ++ (scan_procs s fl pats rest).2) := rfl

/-- The aggregate status of scan_procs is 0 or 1. -/
theorem scan_procs_fst_01 (s : Sys) (fl : Flags) (pats : List String) :
    ∀ pids : List Nat,
      (scan_procs s fl pats pids).1 = 0 ∨ (scan_procs s fl pats pids).1 = 1 := by
  intro pids
  induction pids with
  | nil => left; rfl
  | cons pid rest ih =>
    rw [scan_procs_cons]
    by_cases hr : (scan_proc s fl pats pid).1 < 0
    · right; simp [hr]
    · simpa [hr] using ih

/-! ## Claim C4 -/

/-- Claim C4, counterexample: with fnmatch(3) semantics and no flags, the
asterisk also matches slashes, so the first, non-negated rule of the
claimed example already matches and the matcher returns true, not the
false asserted by the claim. -/
theorem c4_counterexample :
    matches' ["*.so", "!lib*.so"] "/usr/liblocal.so" = true := by decide

/-- Claim C4 (amended): the pattern matcher returns true for an empty
rule list; on a nonempty list it walks the rules in order, returning the
complement of the negation flag at the first rule whose glob matches and
false when no rule matches; the claimed example evaluates to true (the
first rule matches and is non-negated), not false. -/
theorem c4_theorem :
    (∀ p : String, matches' [] p = true)
    ∧ (∀ (r : String) (R : List String) (p : String),
        fnmatch (rulePat r) p = true → fnmatch_any (r :: R) p = !(ruleNegated r))
    ∧ (∀ (r : String) (R : List String) (p : String),
        fnmatch (rulePat r) p = false → fnmatch_any (r :: R) p = fnmatch_any R p)
    ∧ (∀ p : String, fnmatch_any [] p = false)
    ∧ (∀ (r : String) (R : List String) (p : String),
        matches' (r :: R) p = fnmatch_any (r :: R) p)
    ∧ matches' ["*.so", "!lib*.so"] "/usr/liblocal.so" = true := by
  refine ⟨fun p => rfl, ?_, ?_, fun p => rfl, fun r R p => rfl, by decide⟩
  · intro r R p h; simp [fnmatch_any, h]
  · intro r R p h; simp [fnmatch_any, h]

/-- Claim C4, witness: the amended first-match rule applied to the
concrete example of the claim. -/
theorem c4_witness :
    fnmatch (rulePat "*.so") "/usr/liblocal.so" = true ∧
    fnmatch_any ["*.so", "!lib*.so"] "/usr/liblocal.so" = !(ruleNegated "*.so") :=
  ⟨by decide, c4_theorem.2.1 "*.so" ["!lib*.so"] "/usr/liblocal.so" (by decide)⟩

/-! ## Claim C5 -/

/-- Claim C5, counterexample: the comparator is not reflexive on
zero-length files — both opens and both size queries succeed and the
sizes agree, but mapping a zero-length range fails, so the comparison of
a zero-length file with itself yields the error result -1, not the
claimed equal result. -/
theorem c5_counterexample :
    cmp_files c5files "/tmp/empty" "/tmp/empty" = -1 := by decide

/-- Claim C5 (amended): the comparator is reflexive for every readable
regular file of nonzero length (a zero-length file compared with itself
yields the error result instead, because mapping a zero-length range
fails), it is symmetric for all readable regular files, and two files of
different sizes are reported not-equal directly after the size check,
before any content is mapped or compared. -/
theorem c5_theorem :
    (∀ (files : String → Option (List Nat)) (f : String) (d : List Nat),
        files f = some d → d ≠ [] → cmp_files files f f = 0)
    ∧ (∀ (files : String → Option (List Nat)) (a b : String),
        cmp_files files a b = cmp_files files b a)
    ∧ (∀ (files : String → Option (List Nat)) (a b : String) (da db : List Nat),
        files a = some da → files b = some db → da.length ≠ db.length →
        cmp_files files a b = 1) := by
  refine ⟨?_, ?_, ?_⟩
  · intro files f d h hne
    have hz : d.length ≠ 0 := by
      intro h0; exact hne (List.length_eq_zero.mp h0)
    simp [cmp_files, h, hz]
  · intro files a b
    unfold cmp_files
    rcases h1 : files a with _ | f1 <;> rcases h2 : files b with _ | f2 <;>
      simp only [h1, h2]
    by_cases hl : f1.length = f2.length
    · rw [if_neg (not_not_intro hl), if_neg (not_not_intro hl.symm), hl]
      by_cases hz : f2.length = 0
      · rw [if_pos hz, if_pos hz]
      · rw [if_neg hz, if_neg hz]
        by_cases he : f1 = f2
        · rw [if_pos he, if_pos he.symm]
        · rw [if_neg he, if_neg (Ne.symm he)]
    · rw [if_pos hl, if_pos (Ne.symm hl)]
  · intro files a b da db ha hb hne
    simp [cmp_files, ha, hb, hne]

/-- Claim C5, witness: the amended comparator contract instantiated on a
concrete file table with a one-byte file and a two-byte file. -/
theorem c5_witness :
    cmp_files c5wfiles "/a" "/a" = 0 ∧
    cmp_files c5wfiles "/a" "/b" = cmp_files c5wfiles "/b" "/a" ∧
    cmp_files c5wfiles "/a" "/b" = 1 :=
  ⟨c5_theorem.1 c5wfiles "/a" [1] (by decide) (by decide),
   c5_theorem.2.1 c5wfiles "/a" "/b",
   c5_theorem.2.2 c5wfiles "/a" "/b" [1] [2, 3] (by decide) (by decide) (by decide)⟩

/-! ## Claim C6 -/

/-- Claim C6: the map parser collapses consecutive records with the same
filename into one entry — duplicating any line in place never changes
the parsed entry sequence — and the comparison is only against the
immediately preceding filename, not a set of all seen filenames: the
three-permission-variant stream yields exactly one entry, while a stream
in which the filename reappears after a different one yields it twice. -/
theorem c6_theorem :
    (∀ (l : String) (rest : List String) (last : String),
        maps_entries (l :: l :: rest) last = maps_entries (l :: rest) last)
    ∧ (maps_entries c6lines "").map map_info.filename = ["/usr/lib/libfoo.so.1"]
    ∧ (maps_entries c6altLines "").map map_info.filename = ["/a", "/b", "/a"] := by
  refine ⟨?_, by decide, by decide⟩
  intro l rest last
  rcases h : parse_candidate l with _ | mi
  · simp only [maps_entries, h]
  · by_cases hf : mi.filename = last
    · simp [maps_entries, h, hf]
    · simp [maps_entries, h, hf]

/-! ## Claim C7 -/

/-- Claim C7: both for the executable link target and for a maps path,
the deletion marker is stripped first and the .apk-new staging suffix is
stripped second, so a target name staged as path.apk-new and then deleted
is normalized to the intended final path, which is what the filter rules
and the content comparison (and the verbose report) receive. -/
theorem c7_theorem :
    (∀ p : String, strip_exe_link (p ++ ".apk-new (deleted)") = some p)
    ∧ (∀ p : String, strip_maps_line (p ++ ".apk-new (deleted)\n") = some p)
    ∧ proc_has_replaced_exe c7sys ⟨true, false⟩ [] 5 =
        (0, [.pidPath 5 "/usr/bin/foo"])
    ∧ proc_maps_replaced_files c7sys ⟨true, false⟩ [] 5 =
        (0, [.pidPath 5 "/usr/bin/foo"]) := by
  refine ⟨?_, ?_, by decide, by decide⟩
  · intro p
    have lit : (".apk-new (deleted)" : String) = ".apk-new" ++ " (deleted)" := by decide
    rw [lit, ← str_append_assoc]
    simp [strip_exe_link, str_chomp_append, chompIf_append]
  · intro p
    have lit : (".apk-new (deleted)\n" : String) = ".apk-new" ++ " (deleted)\n" := by
      decide
    rw [lit, ← str_append_assoc]
    simp [strip_maps_line, str_chomp_append, chompIf_append]

/-! ## Claim C8 -/

/-- Claim C8: the kernel-process test returns true exactly when reading
the executable link target fails with ENOENT while the link entry itself
still lstats successfully — equivalently, exactly on a kernel-internal
task — and false in every other case, including a vanished process whose
entry is gone entirely. -/
theorem c8_theorem : ∀ (s : Sys) (pid : Nat),
    (is_kernel_proc s pid = true ↔
      (readlink_exe s pid = .error .enoent ∧ exe_lstat_ok s pid = true))
    ∧ (is_kernel_proc s pid = true ↔ s.exe_state pid = .kernelTask) := by
  intro s pid
  rcases h : s.exe_state pid with _ | _ | _ | p
  all_goals simp [is_kernel_proc, readlink_exe, exe_lstat_ok, h]

/-! ## Claim C1 -/

/-- Claim C1, evaluated at the failing input: in a full scan over the
process entries 1 and 7, both live non-kernel processes with a stale
executable, pid 1 would be classified stale if scanned — yet the scan
output contains only pid 7, because the pre-loop next_pid call of
scan_all_procs consumes and drops the first enumerated pid. -/
theorem c1_theorem :
    is_kernel_proc c1sys 1 = false
    ∧ scan_proc c1sys ⟨false, false⟩ [] 1 = (0, [.pid 1])
    ∧ scan_all_procs c1sys ⟨false, false⟩ [] = (0, [.pid 7]) := by decide

/-! ## Claim C2 -/

/-- Claim C2, counterexample: a non-privileged invocation (euid 1000)
with the explicit pid list [5], where reading the identity data of the
live process 5 is permission-denied, exits with the failure status 1 —
a hard error — instead of the benign not-stale skip the claim asserts
for both modes. -/
theorem c2_counterexample :
    main_run c2sys ⟨1000, false, [], ["5"]⟩ = (1, []) := by decide

/-- Claim C2 (amended): the permission-ignore flag is set only in
full-system-scan mode and only for a non-zero effective uid; under it,
permission-denied identity or mapping reads yield the benign not-stale
result, while without it (in particular always in explicit-pid-list
mode, whatever the privilege) the same condition on a live process is a
hard error. -/
theorem c2_theorem :
    (∀ (s : Sys) (fl : Flags) (pats : List String) (pid : Nat),
        s.exe_state pid = .denied → fl.ignore_eacces = true →
        proc_has_replaced_exe s fl pats pid = (1, []))
    ∧ (∀ (s : Sys) (fl : Flags) (pats : List String) (pid : Nat),
        s.maps_state pid = .denied → fl.ignore_eacces = true →
        proc_maps_replaced_files s fl pats pid = (1, []))
    ∧ (∀ (s : Sys) (fl : Flags) (pats : List String) (pid : Nat),
        s.exe_state pid = .denied → fl.ignore_eacces = false →
        s.kill_result pid = none →
        proc_has_replaced_exe s fl pats pid = (-1, []))
    ∧ (∀ (s : Sys) (fl : Flags) (pats : List String) (pid : Nat),
        s.maps_state pid = .denied → fl.ignore_eacces = false →
        s.kill_result pid = none →
        proc_maps_replaced_files s fl pats pid = (-1, []))
    ∧ (∀ (s : Sys) (inv : Invocation), inv.pos_args = [] →
        main_run s inv = scan_all_procs s ⟨inv.verbose, inv.euid != 0⟩ inv.patterns)
    ∧ (∀ (s : Sys) (inv : Invocation) (pids : List Nat),
        parse_pids inv.pos_args = some pids → inv.pos_args ≠ [] →
        main_run s inv = scan_procs s ⟨inv.verbose, false⟩ inv.patterns pids) := by
  refine ⟨?_, ?_, ?_, ?_, ?_, ?_⟩
  · intro s fl pats pid h hig
    simp [proc_has_replaced_exe, readlink_exe, h, hig]
  · intro s fl pats pid h hig
    simp [proc_maps_replaced_files, h, hig]
  · intro s fl pats pid h hig hk
    simp [proc_has_replaced_exe, readlink_exe, proc_exists, h, hig, hk]
  · intro s fl pats pid h hig hk
    simp [proc_maps_replaced_files, proc_exists, h, hig, hk]
  · intro s inv h
    simp [main_run, h]
  · intro s inv pids hp hne
    rcases hl : inv.pos_args with _ | ⟨a, rest⟩
    · exact absurd hl hne
    · rw [hl] at hp
      simp [main_run, hl, hp]

/-- Claim C2, witness: the amended privilege rule instantiated on the
concrete permission-denied process 5. -/
theorem c2_witness :
    proc_has_replaced_exe c2sys ⟨false, true⟩ [] 5 = (1, [])
    ∧ proc_maps_replaced_files c2sys ⟨false, true⟩ [] 5 = (1, [])
    ∧ proc_has_replaced_exe c2sys ⟨false, false⟩ [] 5 = (-1, [])
    ∧ proc_maps_replaced_files c2sys ⟨false, false⟩ [] 5 = (-1, [])
    ∧ main_run c2sys ⟨0, false, [], []⟩ =
        scan_all_procs c2sys ⟨false, (0 : Nat) != 0⟩ []
    ∧ main_run c2sys ⟨1000, false, [], ["5"]⟩ =
        scan_procs c2sys ⟨false, false⟩ [] [5] :=
  ⟨c2_theorem.1 c2sys ⟨false, true⟩ [] 5 rfl rfl,
   c2_theorem.2.1 c2sys ⟨false, true⟩ [] 5 rfl rfl,
   c2_theorem.2.2.1 c2sys ⟨false, false⟩ [] 5 rfl rfl rfl,
   c2_theorem.2.2.2.1 c2sys ⟨false, false⟩ [] 5 rfl rfl rfl,
   c2_theorem.2.2.2.2.1 c2sys ⟨0, false, [], []⟩ rfl,
   c2_theorem.2.2.2.2.2 c2sys ⟨1000, false, [], ["5"]⟩ [5] (by decide) (by decide)⟩

/-! ## Claim C3 -/

/-- Claim C3, counterexample: in verbose mode, process 5 has a stale
executable (result 0) and its mapped-files check then fails with a hard
error (result -1); the product logic of scan_proc masks the error
(0 times -1 equals 0) and the aggregate status is success, not the
failure the claim requires. -/
theorem c3_counterexample :
    (proc_maps_replaced_files c3sys ⟨true, false⟩ [] 5).1 = -1
    ∧ scan_procs c3sys ⟨true, false⟩ [] [5] = (0, [.pidPath 5 "/bin/sh"]) := by decide

/-- Claim C3 (amended): the aggregate status is failure exactly when some
scanned process had a hard error in its executable check, or a non-stale
executable check together with a hard error in its mapped-files check;
a mapped-files hard error of a process whose executable check already
reported stale is masked by the result product and never causes failure;
and a failing process does not stop the scan — every remaining process
output is still produced. -/
theorem c3_theorem : ∀ (s : Sys) (fl : Flags) (pats : List String),
    (∀ pids : List Nat, (scan_procs s fl pats pids).1 = 1 ↔
        ∃ pid ∈ pids, (scan_proc s fl pats pid).1 < 0)
    ∧ (∀ pid : Nat, (scan_proc s fl pats pid).1 < 0 ↔
        ((proc_has_replaced_exe s fl pats pid).1 = -1 ∨
         ((proc_has_replaced_exe s fl pats pid).1 = 1 ∧
          (proc_maps_replaced_files s fl pats pid).1 = -1)))
    ∧ (∀ pid : Nat, (proc_has_replaced_exe s fl pats pid).1 = 0 →
        (scan_proc s fl pats pid).1 = 0)
    ∧ (∀ (pid : Nat) (rest : List Nat),
        (scan_procs s fl pats (pid :: rest)).2 =
          (scan_proc s fl pats pid).2 ++ (scan_procs s fl pats rest).2) := by
  intro s fl pats
  refine ⟨?_, ?_, ?_, fun pid rest => rfl⟩
  · intro pids
    induction pids with
    | nil => simp [scan_procs]
    | cons pid rest ih =>
      rw [scan_procs_cons]
      by_cases hr : (scan_proc s fl pats pid).1 < 0
      · simp only [if_pos hr]
        constructor
        · intro _; exact ⟨pid, List.mem_cons_self pid rest, hr⟩
        · intro _; trivial
      · simp only [if_neg hr]
        rw [ih]
        constructor
        · rintro ⟨x, hx, hlt⟩; exact ⟨x, List.mem_cons_of_mem pid hx, hlt⟩
        · rintro ⟨x, hx, hlt⟩
          rcases List.mem_cons.mp hx with rfl | hmem
          · exact absurd hlt hr
          · exact ⟨x, hmem, hlt⟩
  · intro pid
    rcases proc_has_fst_range s fl pats pid with h1 | h1 | h1 <;>
      rcases proc_maps_fst_range s fl pats pid with h2 | h2 | h2 <;>
      rcases hv : fl.verbose with _ | _ <;>
      simp [scan_proc_def, h1, h2, hv]
  · intro pid h
    rcases hv : fl.verbose with _ | _ <;> simp [scan_proc_def, h, hv]

/-- Claim C3, witness: the masking clause of the amended claim applied to
the concrete process whose executable check reports stale. -/
theorem c3_witness :
    (proc_has_replaced_exe c3sys ⟨true, false⟩ [] 5).1 = 0 ∧
    (scan_proc c3sys ⟨true, false⟩ [] 5).1 = 0 :=
  ⟨by decide, (c3_theorem c3sys ⟨true, false⟩ []).2.2.1 5 (by decide)⟩

/-! ## Claim C9 -/

/-- Claim C9, counterexample: the positional argument "3x" is not a
positive decimal integer, yet the program does not abort with the usage
status — atoi reads the prefix 3 and the scan of process 3 proceeds,
ending in status 0. -/
theorem c9_counterexample :
    main_run c9sys ⟨0, false, [], ["3x"]⟩ = (0, []) := by decide

/-- Claim C9 (amended): the program aborts with the distinct usage exit
status, before scanning anything, exactly when some positional argument
has an atoi value below 1 (non-numeric prefix, zero, or negative); an
argument with a positive decimal prefix followed by trailing non-digit
characters, such as "3x", is accepted as the prefix value and scanned. -/
theorem c9_theorem :
    (∀ (s : Sys) (inv : Invocation), inv.pos_args ≠ [] →
        (∃ a ∈ inv.pos_args, atoi a < 1) →
        main_run s inv = (EXIT_WRONG_USAGE, []))
    ∧ (∀ (s : Sys) (inv : Invocation), inv.pos_args ≠ [] →
        (∀ a ∈ inv.pos_args, 1 ≤ atoi a) →
        main_run s inv =
          scan_procs s ⟨inv.verbose, false⟩ inv.patterns
            (inv.pos_args.map (fun a => (atoi a).toNat))) := by
  constructor
  · intro s inv hne hex
    rcases hl : inv.pos_args with _ | ⟨a, rest⟩
    · exact absurd hl hne
    · rw [hl] at hex
      simp [main_run, hl, parse_pids_eq_none _ hex]
  · intro s inv hne hall
    rcases hl : inv.pos_args with _ | ⟨a, rest⟩
    · exact absurd hl hne
    · rw [hl] at hall
      simp [main_run, hl, parse_pids_eq_some _ hall]

/-- Claim C9, witness: the amended validation rule at the concrete
arguments "0" (rejected before scanning) and "3x" (accepted as pid 3). -/
theorem c9_witness :
    main_run c9sys ⟨0, false, [], ["0"]⟩ = (EXIT_WRONG_USAGE, [])
    ∧ main_run c9sys ⟨0, false, [], ["3x"]⟩ =
        scan_procs c9sys ⟨false, false⟩ [] (["3x"].map (fun a => (atoi a).toNat)) :=
  ⟨c9_theorem.1 c9sys ⟨0, false, [], ["0"]⟩ (by decide) ⟨"0", by decide, by decide⟩,
   c9_theorem.2 c9sys ⟨0, false, [], ["3x"]⟩ (by decide) (by decide)⟩

/-! ## Claim C10 -/

/-- Claim C10: whenever the content comparison does not return 0 — which
covers its error result -1 (file unopenable, vanished, or unmappable)
exactly as it covers its different result 1 — both callers classify the
file as stale and report the process, with the path in verbose mode;
neither caller distinguishes -1 from 1. -/
theorem c10_theorem :
    (∀ (s : Sys) (fl : Flags) (pid : Nat) (lp p2 : String),
        s.exe_state pid = .target lp →
        strip_exe_link lp = some p2 →
        (proc_root_path pid p2).length < PATH_MAX →
        cmp_files s.files (proc_exe_path pid) (proc_root_path pid p2) ≠ 0 →
        proc_has_replaced_exe s fl [] pid =
          (0, [if fl.verbose then .pidPath pid p2 else .pid pid]))
    ∧ (∀ (s : Sys) (fl : Flags) (pid : Nat) (line : String) (mi : map_info),
        s.maps_state pid = .stream [line] →
        parse_candidate line = some mi →
        mi.filename ≠ "" → mi.inode ≠ 0 → mi.dev_major ≠ 0 →
        cmp_files s.files mi.filename
          (proc_map_files_path pid mi.start mi.end_) ≠ 0 →
        proc_maps_replaced_files s fl [] pid =
          (0, [if fl.verbose then .pidPath pid mi.filename else .pid pid])) := by
  constructor
  · intro s fl pid lp p2 h1 h2 h3 h4
    rcases hv : fl.verbose with _ | _ <;>
      simp [proc_has_replaced_exe, readlink_exe, h1, h2, h4, hv, Nat.not_le.mpr h3]
  · intro s fl pid line mi h0 hp hfn hin hdev h4
    rcases hv : fl.verbose with _ | _ <;>
      simp [proc_maps_replaced_files, h0, maps_loop, hp, hfn, hin, hdev, h4, hv]

/-- Claim C10, witness: a concrete live process whose deleted executable
and deleted mapped library both have no on-disk counterpart to open, so
the comparator returns its error result -1 — and the process is reported
stale on both paths. -/
theorem c10_witness :
    cmp_files c10sys.files (proc_exe_path 5) (proc_root_path 5 "/bin/x") = -1
    ∧ proc_has_replaced_exe c10sys ⟨true, false⟩ [] 5 =
        (0, [.pidPath 5 "/bin/x"])
    ∧ proc_maps_replaced_files c10sys ⟨false, false⟩ [] 5 = (0, [.pid 5]) :=
  ⟨by decide,
   c10_theorem.1 c10sys ⟨true, false⟩ 5 "/bin/x (deleted)" "/bin/x"
     rfl (by decide) (by decide) (by decide),
   c10_theorem.2 c10sys ⟨false, false⟩ 5
     "7f00-7f10 r-xp 00000000 08:02 42  /usr/lib/libx.so (deleted)\n"
     ⟨0x7f00, 0x7f10, 8, 42, "/usr/lib/libx.so"⟩
     rfl (by decide) (by decide) (by decide) (by decide) (by decide)⟩

end PNR
